import Mathlib

/-!
Verification of the b-con report-completion poller and invoice parser.

The definitions below are a shallow embedding of the Python sources
src/handlers/cm_handler.py, src/handlers/dv360_handler.py and
src/handlers/invoice_handler.py.  Machine-level details are modelled as
follows: Python integers and wall-clock seconds are Nat, Python dicts
holding string keys and values are insertion-ordered association lists,
Python exceptions are explicit error values in Except, and statements
that Python cannot execute (an out-of-range index, an unbound local, an
unimported module name) are explicit error constructors.
-/

/-! ## Retry constants, from cm_handler.py lines 75 to 83 -/

/-- Minimum amount of time between polling requests (cm_handler.py line 77). -/
def MIN_RETRY_INTERVAL : Nat := 10

/-- Maximum amount of time between polling requests (cm_handler.py line 79). -/
def MAX_RETRY_INTERVAL : Nat := 10 * 60

/-- Maximum amount of time to spend polling (cm_handler.py line 81). -/
def MAX_RETRY_ELAPSED_TIME : Nat := 60 * 60

/-! ## Backoff schedule, cm_handler._next_sleep_interval -/

/-- Python `a or b` on nonnegative integers: 0 is falsy, so the result is
`b` when `a = 0` and `a` otherwise. -/
def pyOrNat (a b : Nat) : Nat := if a = 0 then b else a

/-- The `min_interval` local of `_next_sleep_interval`:
`previous_sleep_interval or MIN_RETRY_INTERVAL`. -/
def minIntervalOf (previous_sleep_interval : Nat) : Nat :=
  pyOrNat previous_sleep_interval MIN_RETRY_INTERVAL

/-- The `max_interval` local of `_next_sleep_interval`:
`previous_sleep_interval * 3 or MIN_RETRY_INTERVAL`. -/
def maxIntervalOf (previous_sleep_interval : Nat) : Nat :=
  pyOrNat (previous_sleep_interval * 3) MIN_RETRY_INTERVAL

/-- `_next_sleep_interval` (cm_handler.py lines 298 to 302), with the value
returned by `random.randint(min_interval, max_interval)` passed in as the
explicit argument `draw`: the function returns
`min(MAX_RETRY_INTERVAL, draw)`. -/
def next_sleep_interval (previous_sleep_interval draw : Nat) : Nat :=
  min MAX_RETRY_INTERVAL draw

/-- The constraint `random.randint` places on a draw: inclusive between the
`min_interval` and `max_interval` computed from the previous interval. -/
def drawInRange (previous_sleep_interval draw : Nat) : Prop :=
  minIntervalOf previous_sleep_interval ≤ draw ∧
    draw ≤ maxIntervalOf previous_sleep_interval

/-- The previous sleep interval seen by step `n` of the polling loop of
`run_report_and_wait`: the loop initialises `sleep = 0` and then iterates
`sleep = _next_sleep_interval(sleep)`. -/
def backoffPrev (draws : Nat → Nat) : Nat → Nat
  | 0 => 0
  | n + 1 => next_sleep_interval (backoffPrev draws n) (draws n)

/-- The backoff sequence: the interval used after tick `n`. -/
def backoffSeq (draws : Nat → Nat) (n : Nat) : Nat :=
  next_sleep_interval (backoffPrev draws n) (draws n)

/-! ## cm_handler.run_report_and_wait polling tick -/

/-- Outcome of one iteration of the polling loop of `run_report_and_wait`
(cm_handler.py lines 237 to 254). -/
inductive CmPollOutcome where
  | available
  | reportRunError
  | deadlineExceeded
  | nextPoll
deriving DecidableEq

/-- One iteration of the polling loop of `run_report_and_wait`
(cm_handler.py lines 237 to 254), after the status fetch: break when the
file is `REPORT_AVAILABLE`; raise `ReportRunError` when the status is any
other non-`PROCESSING` value; raise `ReportRunDeadlineExceeded` when
`time.time() - start_time > MAX_RETRY_ELAPSED_TIME`; otherwise fall
through to the backoff sleep and the next poll. -/
def cmPollTick (status : String) (start_time now : Nat) : CmPollOutcome :=
  if status = "REPORT_AVAILABLE" then CmPollOutcome.available
  else if status ≠ "PROCESSING" then CmPollOutcome.reportRunError
  else if MAX_RETRY_ELAPSED_TIME < now - start_time then
    CmPollOutcome.deadlineExceeded
  else CmPollOutcome.nextPoll

/-! ## dv360_handler status classification and multi-job wait -/

/-- The two metadata signals `_get_report_status` reads from a
`queries().getquery` response: `metadata.running` and
`metadata.googleCloudStoragePathForLatestReport`, each absent when the
key is missing (Python `dict.get` returns `None`). -/
structure QueryResponse where
  running : Option Bool
  reportUrl : Option String
deriving DecidableEq

/-- The `query_status` dict built by `_get_report_status`: a `status`
string, plus a `url` entry set only in the Completed branch. -/
structure QueryStatus where
  status : String
  url : Option String
deriving DecidableEq

/-- Python truthiness of the `running` signal: `None` is falsy. -/
def pyTruthyRunning : Option Bool → Bool
  | some b => b
  | none => false

/-- Python truthiness of the report url: `None` and the empty string are
falsy. -/
def pyTruthyUrl : Option String → Bool
  | some s => s != ""
  | none => false

/-- `_get_report_status` (dv360_handler.py lines 266 to 286): not running
and truthy url gives Completed carrying the url; not running and falsy
url gives Failed; any other combination gives Running. -/
def get_report_status (r : QueryResponse) : QueryStatus :=
  if !(pyTruthyRunning r.running) && pyTruthyUrl r.reportUrl then
    ⟨"Completed", r.reportUrl⟩
  else if !(pyTruthyRunning r.running) && !(pyTruthyUrl r.reportUrl) then
    ⟨"Failed", none⟩
  else
    ⟨"Running", none⟩

/-- Outcome of one iteration of the loop of
`wait_for_reports_to_complete` (dv360_handler.py lines 305 to 312):
either the `break` is taken with the list comprehension value
`[s['url'] for s in statuses]`, or the loop immediately runs again.  The
loop body contains no other exit: no raise statement, no sleep and no
deadline check appear between two rounds of status queries. -/
inductive WaitTick where
  | done (urls : List (Option String))
  | again
deriving DecidableEq

/-- One iteration of `wait_for_reports_to_complete`: break out of the loop
exactly when `all([s['status'] == 'Completed' for s in statuses])`. -/
def waitTick (statuses : List QueryStatus) : WaitTick :=
  if statuses.all (fun s => s.status == "Completed") then
    WaitTick.done (statuses.map (fun s => s.url))
  else
    WaitTick.again

/-- The `while True` loop of `wait_for_reports_to_complete`, driven by the
sequence of poll responses `ticks` (tick `n` is the batch of responses
returned by `_get_reports_status(query_ids)` on round `n`, one response
per query id).  `fuel` bounds how many rounds we unfold; `none` means the
loop is still running after `fuel` rounds. -/
def waitLoop (ticks : Nat → List QueryResponse) :
    Nat → Nat → Option (List (Option String))
  | 0, _ => none
  | fuel + 1, n =>
    match waitTick ((ticks n).map get_report_status) with
    | WaitTick.done urls => some urls
    | WaitTick.again => waitLoop ticks fuel (n + 1)

/-- `wait_for_reports_to_complete` (dv360_handler.py lines 305 to 312),
started at round 0. -/
def wait_for_reports_to_complete (fuel : Nat)
    (ticks : Nat → List QueryResponse) : Option (List (Option String)) :=
  waitLoop ticks fuel 0

/-- Outcome of one iteration of the waiting loop of
`create_timezone_report` (dv360_handler.py lines 205 to 214).  The
fall-through case executes `time.sleep(5)`, but dv360_handler.py never
imports the `time` module (its imports are collections,
concurrent.futures, copy, json, socket, the absl modules and local
utils/handlers), so that statement raises `NameError` instead of
sleeping. -/
inductive TzTickOutcome where
  | done (url : Option String)
  | reportError
  | nameError
deriving DecidableEq

/-- One iteration of the waiting loop of `create_timezone_report`: break
with the url on Completed, raise `ReportError` on Failed, and otherwise
reach the `time.sleep(5)` statement, which raises `NameError` because
`time` is not an imported name in dv360_handler.py. -/
def createTimezoneTick (qs : QueryStatus) : TzTickOutcome :=
  if qs.status == "Completed" then TzTickOutcome.done qs.url
  else if qs.status == "Failed" then TzTickOutcome.reportError
  else TzTickOutcome.nameError

/-! ## cm_handler._clean_up -/

/-- The sentinel test of `_clean_up` (cm_handler.py line 282):
`row and row[0] == 'Report Fields'`. -/
def isReportFieldsRow : List String → Bool
  | [] => false
  | c :: _ => c == "Report Fields"

/-- Index of the first sentinel row, mirroring the `for i, row in
enumerate(report_data)` search of `_clean_up`. -/
def findReportFieldsIdx : List (List String) → Option Nat
  | [] => none
  | row :: rest =>
    if isReportFieldsRow row then some 0
    else (findReportFieldsIdx rest).map (fun i => i + 1)

/-- Result of `_clean_up`: either the slice `report_data[start_idx:-1]`,
or the `UnboundLocalError` Python raises at `return` when no row matched
the sentinel and `start_idx` was never assigned. -/
inductive CleanUpResult where
  | ok (rows : List (List String))
  | unboundLocalError
deriving DecidableEq

/-- `_clean_up` (cm_handler.py lines 280 to 287): find the row whose first
cell is `Report Fields`, set `start_idx` to the following index, and
return `report_data[start_idx:-1]`; when no row matches, `start_idx` is
unbound and the return statement raises `UnboundLocalError`. -/
def clean_up (report_data : List (List String)) : CleanUpResult :=
  match findReportFieldsIdx report_data with
  | some i => CleanUpResult.ok ((report_data.drop (i + 1)).dropLast)
  | none => CleanUpResult.unboundLocalError

/-! ## invoice_handler: text splitting -/

/-- Split a character list on a separator character; the result always has
one more piece than the number of separators. -/
def splitListOn (sep : Char) (cs : List Char) : List (List Char) :=
  cs.foldr
    (fun c acc =>
      if c = sep then [] :: acc
      else
        match acc with
        | [] => [[c]]
        | piece :: rest => (c :: piece) :: rest)
    [[]]

/-- Python `str.splitlines()` for newline-separated text: split on the
newline character and drop the trailing empty piece, so that text with no
final newline and text with one final newline give the same lines, and
the empty string gives no lines. -/
def pySplitlines (s : String) : List String :=
  if s = "" then []
  else
    let pieces := (splitListOn '\n' s.toList).map (fun cs => String.mk cs)
    if pieces.getLastD "" = "" then pieces.dropLast else pieces

/-- One record produced by `csv.reader` from one input line, for the
quote-free comma-separated lines the invoice claims exercise: an empty
line gives the empty record, any other line is split on commas. -/
def parseCsvLine (s : String) : List String :=
  if s = "" then []
  else (splitListOn ',' s.toList).map (fun cs => String.mk cs)

/-- The row sequence `csv.reader(data.splitlines())` iterates over. -/
def csvRows (data : String) : List (List String) :=
  (pySplitlines data).map parseCsvLine

/-! ## invoice_handler: dict model -/

/-- A Python dict with string keys and values: an insertion-ordered
association list with unique keys. -/
abbrev Dict := List (String × String)

/-- Python `d[k] = v` / `d.update` with a single key: overwrite the value
in place when the key is present, otherwise append the pair. -/
def dictInsert (d : Dict) (k v : String) : Dict :=
  if d.any (fun p => p.1 == k) then
    d.map (fun p => if p.1 == k then (k, v) else p)
  else d ++ [(k, v)]

/-- Python `d.get(k)`: the value stored at the first (hence only) entry
with key `k`. -/
def dictGet? (d : Dict) (k : String) : Option String :=
  (d.find? (fun p => p.1 == k)).map (fun p => p.2)

/-- Merge a list of key-value pairs into a dict, left to right, as
`dict.update` and `dict(pairs)` do. -/
def dictMerge (d : Dict) (kvs : List (String × String)) : Dict :=
  kvs.foldl (fun acc kv => dictInsert acc kv.1 kv.2) d

/-! ## invoice_handler: parser -/

/-- The declared error kinds of `invoice_handler.read`, together with the
undeclared Python exceptions its body can raise: an `IndexError` from an
out-of-range subscript, the `KeyError` on `invoice_header['Product']`,
the `KeyError` raised when no invoice/credit/debit number key exists, and
the `TypeError` from subscripting the `None` returned by a failed
`re.search`. -/
inductive ReadErr where
  | productNotFound
  | incorrectProduct (p : String)
  | keyErrorProduct
  | keyErrorInvoiceNumber
  | indexError
  | typeError
deriving DecidableEq

/-- `State` (invoice_handler.py lines 46 to 51): which part of the
invoice the parser is reading. -/
inductive State where
  | READ_HEADER
  | READ_PRODUCT
  | READ_ENTRIES
  | READ_GST
deriving DecidableEq

/-- `SUPPORTED_PRODUCTS` (invoice_handler.py lines 31 to 35). -/
def SUPPORTED_PRODUCTS : List String :=
  ["Display and Video 360", "Campaign Manager", "DoubleClick Campaign Manager"]

/-- The byte-order-mark character stripped from header keys. -/
def bomChar : Char := Char.ofNat 0xFEFF

/-- Python `row[0].replace(chr(0xFEFF), '')`: remove every occurrence of
the byte-order mark. -/
def stripBom (s : String) : String :=
  String.mk (s.toList.filter (fun c => c ≠ bomChar))

/-- Python `row[i]` on a list: the element, or `IndexError` when the index
is out of range. -/
def getCell (row : List String) (i : Nat) : Except ReadErr String :=
  match row.get? i with
  | some c => Except.ok c
  | none => Except.error ReadErr.indexError

/-- Python `s.lower()`, character by character. -/
def pyLower (s : String) : String :=
  String.mk (s.toList.map Char.toLower)

/-- Substring test on character lists, used for Python `'gst' in s`. -/
def hasSubCL (pat : List Char) : List Char → Bool
  | [] => pat.isEmpty
  | c :: cs => pat.isPrefixOf (c :: cs) || hasSubCL pat cs

/-- Python `'gst' in s.lower()`. -/
def containsGst (s : String) : Bool :=
  hasSubCL "gst".toList (pyLower s).toList

/-- The group captured by `re.search(r'\((.*)\)', s)[1]`: the greedy `.*`
spans from the first opening parenthesis that still has a closing
parenthesis after it, to the last closing parenthesis of the string;
`none` when no such pair exists, in which case `re.search` returns `None`
and Python raises `TypeError` at the subscript. -/
def captureParen (s : String) : Option String :=
  let cs := s.toList
  match cs.findIdx? (fun c => c = '('), cs.findIdx? (fun c => c = ')') with
  | some i, some _ =>
    let j := cs.length - 1 - (cs.reverse.findIdx (fun c => c = ')'))
    if i < j then some (String.mk ((cs.drop (i + 1)).take (j - i - 1)))
    else none
  | _, _ => none

/-- `read_header` (invoice_handler.py lines 124 to 126): the single pair
with the byte-order mark stripped from the key; `IndexError` when the row
has fewer than two cells. -/
def read_header (row : List String) : Except ReadErr (String × String) :=
  match getCell row 0 with
  | Except.error e => Except.error e
  | Except.ok c0 =>
    match getCell row 1 with
    | Except.error e => Except.error e
    | Except.ok c1 => Except.ok (stripBom c0, c1)

/-- `read_gst` (invoice_handler.py lines 129 to 145), with Python
evaluation order preserved: `row[0]` is always evaluated first (an
`IndexError` on an empty row); when it is falsy the condition evaluates
`row[2]`, and the `elif` additionally evaluates `row[3]`; a gst column
yields the parenthesized capture as `gst_pct` and `row[-1]` as `gst_val`;
a truthy `row[0]` or a gst-free row yields the empty update. -/
def read_gst (row : List String) : Except ReadErr (List (String × String)) :=
  match getCell row 0 with
  | Except.error e => Except.error e
  | Except.ok c0 =>
    if c0 = "" then
      match getCell row 2 with
      | Except.error e => Except.error e
      | Except.ok c2 =>
        if containsGst c2 then
          match captureParen c2 with
          | none => Except.error ReadErr.typeError
          | some pct => Except.ok [("gst_pct", pct), ("gst_val", row.getLastD "")]
        else
          match getCell row 3 with
          | Except.error e => Except.error e
          | Except.ok c3 =>
            if containsGst c3 then
              match captureParen c3 with
              | none => Except.error ReadErr.typeError
              | some pct => Except.ok [("gst_pct", pct), ("gst_val", row.getLastD "")]
            else Except.ok []
    else Except.ok []

/-- Python `t.strip()`: surrounding whitespace removed. -/
def pyStrip (s : String) : String :=
  String.mk (((s.toList.dropWhile Char.isWhitespace).reverse.dropWhile
    Char.isWhitespace).reverse)

/-- `read_entries` (invoice_handler.py lines 148 to 155): the first
buffered row is the column-name row (`rows[0]` raises `IndexError` when
no entry rows were buffered), each remaining row is zipped positionally
against it with every cell stripped, and each resulting dict is updated
with the invoice number. -/
def read_entries (invoice_number : String) (rows : List (List String)) :
    Except ReadErr (List Dict) :=
  match rows with
  | [] => Except.error ReadErr.indexError
  | header :: entries =>
    Except.ok (entries.map (fun e =>
      dictInsert (dictMerge [] (header.zip (e.map pyStrip)))
        "Invoice number" invoice_number))

/-- The body of the `for row in reader` loop of `read` for one row that
was not consumed by the two blank-line state transitions
(invoice_handler.py lines 82 to 103).  Line 82 evaluates `row[0]` before
testing the state, so an empty row raises `IndexError` here; a falsy
first cell in `READ_ENTRIES` switches the state to `READ_GST` before the
row is processed by the new state. -/
def processRow (st : State) (hdr : Dict) (ents : List (List String))
    (row : List String) : Except ReadErr (State × Dict × List (List String)) :=
  match row with
  | [] => Except.error ReadErr.indexError
  | c0 :: _ =>
    let st1 := if c0 = "" ∧ st = State.READ_ENTRIES then State.READ_GST else st
    match st1 with
    | State.READ_HEADER =>
      match read_header row with
      | Except.error e => Except.error e
      | Except.ok kv => Except.ok (st1, dictInsert hdr kv.1 kv.2, ents)
    | State.READ_PRODUCT =>
      if row = [] ∨ pyLower c0 ≠ "product" then
        Except.error ReadErr.productNotFound
      else
        match read_header row with
        | Except.error e => Except.error e
        | Except.ok kv =>
          let hdr1 := dictInsert hdr kv.1 kv.2
          match dictGet? hdr1 "Product" with
          | none => Except.error ReadErr.keyErrorProduct
          | some p =>
            if SUPPORTED_PRODUCTS.contains p then Except.ok (st1, hdr1, ents)
            else Except.error (ReadErr.incorrectProduct p)
    | State.READ_ENTRIES => Except.ok (st1, hdr, ents ++ [row])
    | State.READ_GST =>
      match read_gst row with
      | Except.error e => Except.error e
      | Except.ok kvs => Except.ok (st1, dictMerge hdr kvs, ents)

/-- The `for row in reader` loop of `read` (invoice_handler.py lines 71
to 103): a blank row in `READ_HEADER` or `READ_PRODUCT` only advances the
state (`continue`); every other row goes through `processRow`. -/
def readLoop (st : State) (hdr : Dict) (ents : List (List String)) :
    List (List String) → Except ReadErr (Dict × List (List String))
  | [] => Except.ok (hdr, ents)
  | row :: rest =>
    if row = [] ∧ st = State.READ_HEADER then
      readLoop State.READ_PRODUCT hdr ents rest
    else if row = [] ∧ st = State.READ_PRODUCT then
      readLoop State.READ_ENTRIES hdr ents rest
    else
      match processRow st hdr ents row with
      | Except.error e => Except.error e
      | Except.ok (st1, hdr1, ents1) => readLoop st1 hdr1 ents1 rest

/-- The invoice-number lookup of `read` (invoice_handler.py lines 105 to
117): try `Invoice number`, then `Credit memo number`, then `Debit memo
number`; raise `KeyError` when all three are absent. -/
def resolveInvoiceNumber (hdr : Dict) : Except ReadErr String :=
  match dictGet? hdr "Invoice number" with
  | some v => Except.ok v
  | none =>
    match dictGet? hdr "Credit memo number" with
    | some v => Except.ok v
    | none =>
      match dictGet? hdr "Debit memo number" with
      | some v => Except.ok v
      | none => Except.error ReadErr.keyErrorInvoiceNumber

/-- Python exception propagation: an error in a step aborts the caller
with the same error. -/
def exceptBind {α β : Type} (x : Except ReadErr α)
    (f : α → Except ReadErr β) : Except ReadErr β :=
  match x with
  | Except.error e => Except.error e
  | Except.ok a => f a

/-- `read` (invoice_handler.py lines 54 to 121) on an already split row
sequence: run the state machine from `READ_HEADER` with empty header and
entry buffers, resolve the invoice number, and build the entry dicts. -/
def readRows (rows : List (List String)) : Except ReadErr (Dict × List Dict) :=
  exceptBind (readLoop State.READ_HEADER [] [] rows) (fun pair =>
    exceptBind (resolveInvoiceNumber pair.1) (fun inv =>
      exceptBind (read_entries inv pair.2) (fun entsD =>
        Except.ok (pair.1, entsD))))

/-- `read` applied to the text of the invoice file (the source takes a
path and reads the file; the embedding takes the file contents). -/
def read (invoice_text : String) : Except ReadErr (Dict × List Dict) :=
  readRows (csvRows invoice_text)

/-! ## Concrete inputs used by the claims -/

deriving instance DecidableEq for Except

/-- The invoice text of the specification scenario, verbatim. -/
def scenarioText : String :=
  "Invoice number,INV-1\n\nProduct,Campaign Manager\n\nItem,Qty,Price\nWidget,2,10.00\n\n,,GST (15%),,3.00"

/-- The specification scenario with the blank line between the entries
section and the GST row removed. -/
def scenarioTextNoBlank : String :=
  "Invoice number,INV-1\n\nProduct,Campaign Manager\n\nItem,Qty,Price\nWidget,2,10.00\n,,GST (15%),,3.00"

/-! ## Helper lemmas -/

/-- When every round of status queries yields a tick that loops again, the
wait loop runs forever: it returns nothing for any amount of fuel. -/
theorem waitLoop_none_of_stuck (ticks : Nat → List QueryResponse)
    (h : ∀ n, waitTick ((ticks n).map get_report_status) = WaitTick.again) :
    ∀ fuel n, waitLoop ticks fuel n = none := by
  intro fuel
  induction fuel with
  | zero => intro n; rfl
  | succ fuel ih => intro n; simp [waitLoop, h n, ih]

/-- If the wait loop returns, some round of status queries observed every
job Completed. -/
theorem waitLoop_some_inv (ticks : Nat → List QueryResponse) :
    ∀ fuel n urls, waitLoop ticks fuel n = some urls →
      ∃ m, n ≤ m ∧ m < n + fuel ∧
        waitTick ((ticks m).map get_report_status) = WaitTick.done urls := by
  intro fuel
  induction fuel with
  | zero => intro n urls h; exact absurd h (by simp [waitLoop])
  | succ fuel ih =>
    intro n urls h
    rw [waitLoop] at h
    cases htick : waitTick ((ticks n).map get_report_status) with
    | done u =>
      rw [htick] at h
      exact ⟨n, Nat.le_refl n, by omega, by rw [htick, Option.some.inj h]⟩
    | again =>
      rw [htick] at h
      obtain ⟨m, h1, h2, h3⟩ := ih (n + 1) urls h
      exact ⟨m, by omega, by omega, h3⟩

/-- A tick that exits the loop saw every status Completed and returned the
url list. -/
theorem waitTick_done_char (statuses : List QueryStatus)
    (urls : List (Option String)) (h : waitTick statuses = WaitTick.done urls) :
    statuses.all (fun s => s.status == "Completed") = true ∧
      urls = statuses.map (fun s => s.url) := by
  by_cases hall : statuses.all (fun s => s.status == "Completed") = true
  · refine ⟨hall, ?_⟩
    unfold waitTick at h
    rw [if_pos hall] at h
    cases h
    rfl
  · unfold waitTick at h
    rw [if_neg hall] at h
    cases h

/-- A successful exception-propagating composition succeeded in both
steps. -/
theorem exceptBind_ok_inv {α β : Type} {x : Except ReadErr α}
    {f : α → Except ReadErr β} {b : β} (h : exceptBind x f = Except.ok b) :
    ∃ a, x = Except.ok a ∧ f a = Except.ok b := by
  cases x with
  | error e => exact absurd h (by simp [exceptBind])
  | ok a => exact ⟨a, rfl, h⟩

/-- Inserting a key then looking it up gives the inserted value. -/
theorem dictGet_dictInsert_self (d : Dict) (k v : String) :
    dictGet? (dictInsert d k v) k = some v := by
  induction d with
  | nil => simp [dictInsert, dictGet?, List.find?]
  | cons p ps ih =>
    cases hp : (p.1 == k) with
    | true =>
      have hins : dictInsert (p :: ps) k v =
          (k, v) :: ps.map (fun q => if q.1 == k then (k, v) else q) := by
        unfold dictInsert
        rw [if_pos (by simp [List.any_cons, hp]), List.map_cons, if_pos hp]
      rw [hins]
      unfold dictGet?
      rw [List.find?_cons_of_pos _ (by simp)]
      rfl
    | false =>
      have hins : dictInsert (p :: ps) k v = p :: dictInsert ps k v := by
        unfold dictInsert
        rw [List.any_cons, hp, Bool.false_or]
        by_cases hany : ps.any (fun q => q.1 == k) = true
        · rw [if_pos hany, if_pos hany, List.map_cons, if_neg (by simp [hp])]
        · rw [if_neg hany, if_neg hany, List.cons_append]
      rw [hins]
      unfold dictGet?
      rw [List.find?_cons_of_neg _ (by simp [hp])]
      exact ih

/-- The backoff state is always positive and never above the cap once one
draw has been made. -/
theorem backoffSeq_bounds (draws : Nat → Nat)
    (h : ∀ n, drawInRange (backoffPrev draws n) (draws n)) (n : Nat) :
    0 < backoffSeq draws n ∧ backoffSeq draws n ≤ MAX_RETRY_INTERVAL := by
  have h0 := (h n).1
  have hmin : 0 < minIntervalOf (backoffPrev draws n) := by
    unfold minIntervalOf pyOrNat MIN_RETRY_INTERVAL
    split <;> omega
  have hd : 0 < draws n := Nat.lt_of_lt_of_le hmin h0
  unfold backoffSeq next_sleep_interval MAX_RETRY_INTERVAL
  omega

/-- With every draw equal to 10 the backoff sequence is constantly 10. -/
theorem backoffSeq_const_ten (n : Nat) : backoffSeq (fun _ => 10) n = 10 := rfl

/-- The constant draw 10 satisfies the randint range constraint at every
step. -/
theorem drawInRange_const_ten :
    ∀ n, drawInRange (backoffPrev (fun _ => 10) n) 10 := by
  intro n
  cases n with
  | zero => exact ⟨by decide, by decide⟩
  | succ m =>
    have hm : backoffPrev (fun _ => 10) (m + 1) = 10 := rfl
    rw [hm]
    exact ⟨by decide, by decide⟩

/-! ## Claim theorems -/

/-- C1 (counterexample).  The claim says `wait_for_reports_to_complete`
raises `JobFailedError` as soon as any polled job is observed Failed.  On
a batch whose single job answers every poll with running false and no
result locator (hence classified Failed), one tick of the loop simply
loops again, and after 100 polling rounds the wait has neither returned
nor produced any error: the loop has no failure exit at all. -/
theorem dv360_wait_failed_job_cex :
    waitTick [⟨"Failed", none⟩] = WaitTick.again ∧
      wait_for_reports_to_complete 100 (fun _ => [⟨some false, none⟩]) = none := by
  exact ⟨by decide, waitLoop_none_of_stuck _ (fun n => by decide) 100 0⟩

/-- C1 (amended).  `wait_for_reports_to_complete` never aborts on a
Failed status: any tick whose statuses contain a Failed job loops again
rather than raising, and whenever the wait returns a value some round
observed every job Completed and the value is that round's url list, so
there is no partial success and no failure error. -/
theorem dv360_wait_never_aborts_on_failed :
    (∀ statuses : List QueryStatus,
        statuses.any (fun s => s.status == "Failed") = true →
        waitTick statuses = WaitTick.again) ∧
    (∀ (fuel : Nat) (ticks : Nat → List QueryResponse)
        (urls : List (Option String)),
        wait_for_reports_to_complete fuel ticks = some urls →
        ∃ m, m < fuel ∧
          ((ticks m).map get_report_status).all
              (fun s => s.status == "Completed") = true ∧
          urls = ((ticks m).map get_report_status).map (fun s => s.url)) := by
  constructor
  · intro statuses hany
    unfold waitTick
    rw [if_neg]
    intro hall
    simp only [List.any_eq_true] at hany
    obtain ⟨s, hs, hfail⟩ := hany
    simp only [List.all_eq_true] at hall
    have hcomp := hall s hs
    rw [beq_iff_eq] at hfail hcomp
    rw [hfail] at hcomp
    exact absurd hcomp (by decide)
  · intro fuel ticks urls h
    obtain ⟨m, _, hm, htick⟩ := waitLoop_some_inv ticks fuel 0 urls h
    obtain ⟨hall, hurls⟩ := waitTick_done_char _ _ htick
    exact ⟨m, by omega, hall, hurls⟩

/-- C1 (witness). -/
theorem dv360_wait_never_aborts_on_failed_witness :
    waitTick [⟨"Failed", none⟩, ⟨"Completed", some "gs://a"⟩] = WaitTick.again ∧
      (∃ m, m < 1 ∧
        ((((fun _ => [⟨some false, some "gs://a"⟩]) :
              Nat → List QueryResponse) m).map get_report_status).all
            (fun s => s.status == "Completed") = true ∧
        [some "gs://a"] =
          ((((fun _ => [⟨some false, some "gs://a"⟩]) :
              Nat → List QueryResponse) m).map get_report_status).map
            (fun s => s.url)) :=
  ⟨dv360_wait_never_aborts_on_failed.1 _ (by decide),
   dv360_wait_never_aborts_on_failed.2 1 (fun _ => [⟨some false, some "gs://a"⟩])
     [some "gs://a"] (by decide)⟩

/-- C2 (counterexample).  The specification scenario text does not parse:
the blank line separating the entries section from the GST row reaches
line 82 of invoice_handler.py in the READ_ENTRIES state, where the
subscript `row[0]` on the empty row raises `IndexError` before any state
test can run. -/
theorem invoice_scenario_cex :
    read scenarioText = Except.error ReadErr.indexError := by decide

/-- C2 (amended).  On the scenario text `read` fails with an uncaught
index error at the blank row before the GST line; with that blank line
removed `read` succeeds and returns the header pairs Invoice number
INV-1, Product Campaign Manager, gst_pct 15% and gst_val 3.00 (the
parenthesized capture keeps the percent sign) and exactly one entry with
Item Widget, Qty 2, Price 10.00 and Invoice number INV-1. -/
theorem invoice_scenario_amended :
    read scenarioText = Except.error ReadErr.indexError ∧
      read scenarioTextNoBlank =
        Except.ok
          ([("Invoice number", "INV-1"), ("Product", "Campaign Manager"),
              ("gst_pct", "15%"), ("gst_val", "3.00")],
            [[("Item", "Widget"), ("Qty", "2"), ("Price", "10.00"),
                ("Invoice number", "INV-1")]]) :=
  ⟨by decide, by decide⟩

/-- C3 (counterexample).  The claim says the `MAX_RETRY_ELAPSED_TIME`
deadline is checked at every tick of `wait_for_reports_to_complete` as
well.  That loop consults no clock and has no deadline outcome: on a
batch whose single job polls Running forever, after 3601 polling rounds
the wait is still looping and no deadline error has been raised. -/
theorem dv360_wait_no_deadline_cex :
    wait_for_reports_to_complete 3601 (fun _ => [⟨some true, none⟩]) = none :=
  waitLoop_none_of_stuck _ (fun n => by decide) 3601 0

/-- C3 (amended).  The elapsed-time check is performed at every tick of
the single-job wait in `cm_handler.run_report_and_wait`: a tick that
still sees `PROCESSING` raises `ReportRunDeadlineExceeded` as soon as the
elapsed time exceeds `MAX_RETRY_ELAPSED_TIME`, regardless of the backoff
state.  The multi-job wait `dv360_handler.wait_for_reports_to_complete`
performs no deadline check: a tick with any job not yet Completed always
just loops again. -/
theorem deadline_check_cm_only :
    (∀ start_time now : Nat,
        MAX_RETRY_ELAPSED_TIME < now - start_time →
        cmPollTick "PROCESSING" start_time now = CmPollOutcome.deadlineExceeded) ∧
    (∀ statuses : List QueryStatus,
        statuses.all (fun s => s.status == "Completed") = false →
        waitTick statuses = WaitTick.again) := by
  constructor
  · intro s t h
    unfold cmPollTick
    rw [if_neg (by decide), if_neg (by decide), if_pos h]
  · intro statuses hall
    simp [waitTick, hall]

/-- C3 (witness). -/
theorem deadline_check_cm_only_witness :
    cmPollTick "PROCESSING" 0 3601 = CmPollOutcome.deadlineExceeded ∧
      waitTick [⟨"Running", none⟩] = WaitTick.again :=
  ⟨deadline_check_cm_only.1 0 3601 (by decide),
   deadline_check_cm_only.2 [⟨"Running", none⟩] (by decide)⟩

/-- C4.  For every backoff sequence obtained by iterating
`_next_sleep_interval` from 0, and every outcome of the random draws
(each draw lying in the inclusive randint range computed from the
previous interval), the first interval equals `MIN_RETRY_INTERVAL` and
each subsequent interval lies between the previous interval and the
minimum of three times the previous interval and `MAX_RETRY_INTERVAL`. -/
theorem backoff_interval_bounds (draws : Nat → Nat)
    (h : ∀ n, drawInRange (backoffPrev draws n) (draws n)) :
    backoffSeq draws 0 = MIN_RETRY_INTERVAL ∧
      ∀ n, backoffSeq draws n ≤ backoffSeq draws (n + 1) ∧
        backoffSeq draws (n + 1) ≤
          min (3 * backoffSeq draws n) MAX_RETRY_INTERVAL := by
  constructor
  · have h0 := h 0
    have hmin0 : minIntervalOf (backoffPrev draws 0) = 10 := by
      unfold backoffPrev minIntervalOf pyOrNat MIN_RETRY_INTERVAL
      simp
    have hmax0 : maxIntervalOf (backoffPrev draws 0) = 10 := by
      unfold backoffPrev maxIntervalOf pyOrNat MIN_RETRY_INTERVAL
      simp
    unfold drawInRange at h0
    rw [hmin0, hmax0] at h0
    have hd : draws 0 = 10 := Nat.le_antisymm h0.2 h0.1
    unfold backoffSeq next_sleep_interval MIN_RETRY_INTERVAL MAX_RETRY_INTERVAL
    rw [hd]
    decide
  · intro n
    obtain ⟨hb1, hb2⟩ := backoffSeq_bounds draws h n
    have hn := h (n + 1)
    have hprev : backoffPrev draws (n + 1) = backoffSeq draws n := rfl
    rw [hprev] at hn
    have h1 : minIntervalOf (backoffSeq draws n) = backoffSeq draws n := by
      unfold minIntervalOf pyOrNat
      rw [if_neg (by omega)]
    have h2 : maxIntervalOf (backoffSeq draws n) = backoffSeq draws n * 3 := by
      unfold maxIntervalOf pyOrNat
      rw [if_neg (by omega)]
    unfold drawInRange at hn
    rw [h1, h2] at hn
    have hs : backoffSeq draws (n + 1) =
        min MAX_RETRY_INTERVAL (draws (n + 1)) := rfl
    rw [hs]
    unfold MAX_RETRY_INTERVAL at hb2 ⊢
    omega

/-- C4 (witness). -/
theorem backoff_interval_bounds_witness :
    backoffSeq (fun _ => 10) 0 = MIN_RETRY_INTERVAL ∧
      (backoffSeq (fun _ => 10) 0 ≤ backoffSeq (fun _ => 10) 1 ∧
        backoffSeq (fun _ => 10) 1 ≤
          min (3 * backoffSeq (fun _ => 10) 0) MAX_RETRY_INTERVAL) :=
  ⟨(backoff_interval_bounds (fun _ => 10) (fun n => drawInRange_const_ten n)).1,
   (backoff_interval_bounds (fun _ => 10) (fun n => drawInRange_const_ten n)).2 0⟩

/-- C5.  A tick of the `create_timezone_report` wait that sees a Running
status reaches `time.sleep(5)`, which raises `NameError` because
dv360_handler.py never imports `time`; and a tick of
`wait_for_reports_to_complete` that sees a Running status loops straight
into the next round of status queries, the loop body containing no sleep
at all: two polling rounds complete back to back with no intervening
sleep. -/
theorem dv360_poll_sleep_bug :
    createTimezoneTick ⟨"Running", none⟩ = TzTickOutcome.nameError ∧
      waitTick [⟨"Running", none⟩] = WaitTick.again ∧
      wait_for_reports_to_complete 2 (fun _ => [⟨some true, none⟩]) = none := by
  exact ⟨by decide, by decide, waitLoop_none_of_stuck _ (fun n => by decide) 2 0⟩

/-- C6.  `_get_report_status` classifies every status-query response by
the two signals: running falsy and locator truthy gives Completed with
the locator as url; running falsy and locator falsy gives Failed; running
truthy gives Running. -/
theorem get_report_status_classification (r : QueryResponse) :
    (pyTruthyRunning r.running = false → pyTruthyUrl r.reportUrl = true →
        get_report_status r = ⟨"Completed", r.reportUrl⟩) ∧
    (pyTruthyRunning r.running = false → pyTruthyUrl r.reportUrl = false →
        get_report_status r = ⟨"Failed", none⟩) ∧
    (pyTruthyRunning r.running = true →
        get_report_status r = ⟨"Running", none⟩) := by
  refine ⟨fun h1 h2 => ?_, fun h1 h2 => ?_, fun h1 => ?_⟩
  · simp [get_report_status, h1, h2]
  · simp [get_report_status, h1, h2]
  · simp [get_report_status, h1]

/-- C6 (witness). -/
theorem get_report_status_classification_witness :
    get_report_status ⟨some false, some "gs://r"⟩ =
        ⟨"Completed", some "gs://r"⟩ ∧
      get_report_status ⟨some false, none⟩ = ⟨"Failed", none⟩ ∧
      get_report_status ⟨some true, none⟩ = ⟨"Running", none⟩ :=
  ⟨(get_report_status_classification ⟨some false, some "gs://r"⟩).1
      (by decide) (by decide),
   (get_report_status_classification ⟨some false, none⟩).2.1
      (by decide) (by decide),
   (get_report_status_classification ⟨some true, none⟩).2.2 (by decide)⟩

/-- C7 (counterexample).  On the tax-section row of the claim, `read_gst`
records gst_pct as the string 15% rather than 15: the greedy capture of
the pattern keeps everything between the parentheses, including the
percent sign. -/
theorem read_gst_pct_cex :
    read_gst ["", "", "GST (15%)", "", "42.00"] =
        Except.ok [("gst_pct", "15%"), ("gst_val", "42.00")] ∧
      ¬ ("15%" : String) = "15" :=
  ⟨by decide, by decide⟩

/-- C7 (amended).  Applying `read_gst` to the tax-section row adds
exactly gst_pct 15% (the full parenthesized capture) and gst_val 42.00 to
the header. -/
theorem read_gst_percent_capture :
    read_gst ["", "", "GST (15%)", "", "42.00"] =
      Except.ok [("gst_pct", "15%"), ("gst_val", "42.00")] := by decide

/-- C8 (counterexample).  When the line after the header-section blank
line is itself blank, `read` does not raise `ProductNotFoundError`: the
blank row triggers the READ_PRODUCT to READ_ENTRIES transition and is
consumed by `continue`, so parsing continues and succeeds with no product
check at all. -/
theorem product_blank_line_cex :
    read "Invoice number,INV-1\n\n\nItem,Qty\nW,1" =
      Except.ok ([("Invoice number", "INV-1")],
        [[("Item", "W"), ("Qty", "1"), ("Invoice number", "INV-1")]]) := by decide

/-- C8 (amended).  For every invoice row sequence consisting of a two-cell
header row, the header-section blank line, and then a non-blank row whose
first cell lowercased is not the word product, `read` fails with
`ProductNotFoundError` whatever rows follow; a blank row in that position
instead silently advances the state to the entries section. -/
theorem product_not_found_amended (k v : String) (r : List String)
    (rest : List (List String)) (hr : r ≠ [])
    (hp : pyLower (r.headD "") ≠ "product") :
    readRows ([k, v] :: [] :: r :: rest) =
      Except.error ReadErr.productNotFound := by
  obtain ⟨c, rs, rfl⟩ : ∃ c rs, r = c :: rs := by
    cases r with
    | nil => exact absurd rfl hr
    | cons c rs => exact ⟨c, rs, rfl⟩
  simp only [List.headD] at hp
  simp [readRows, readLoop, processRow, read_header, getCell, exceptBind, hp]

/-- C8 (witness). -/
theorem product_not_found_amended_witness :
    readRows [["Invoice number", "INV-1"], [], ["Total", "5"], ["x"]] =
      Except.error ReadErr.productNotFound :=
  product_not_found_amended "Invoice number" "INV-1" ["Total", "5"] [["x"]]
    (by decide) (by decide)

/-- C9.  `read` resolves the invoice number from the assembled header by
trying Invoice number, then Credit memo number, then Debit memo number in
that priority order, failing with the missing-required-key error when all
three are absent; and every entry dict a successful parse returns carries
that resolved value under the Invoice number key. -/
theorem invoice_number_resolution :
    (∀ (hdr : Dict) (v : String), dictGet? hdr "Invoice number" = some v →
        resolveInvoiceNumber hdr = Except.ok v) ∧
    (∀ (hdr : Dict) (v : String), dictGet? hdr "Invoice number" = none →
        dictGet? hdr "Credit memo number" = some v →
        resolveInvoiceNumber hdr = Except.ok v) ∧
    (∀ (hdr : Dict) (v : String), dictGet? hdr "Invoice number" = none →
        dictGet? hdr "Credit memo number" = none →
        dictGet? hdr "Debit memo number" = some v →
        resolveInvoiceNumber hdr = Except.ok v) ∧
    (∀ hdr : Dict, dictGet? hdr "Invoice number" = none →
        dictGet? hdr "Credit memo number" = none →
        dictGet? hdr "Debit memo number" = none →
        resolveInvoiceNumber hdr = Except.error ReadErr.keyErrorInvoiceNumber) ∧
    (∀ (rows : List (List String)) (hdr : Dict) (ents : List Dict),
        readRows rows = Except.ok (hdr, ents) →
        ∃ inv, resolveInvoiceNumber hdr = Except.ok inv ∧
          ∀ d ∈ ents, dictGet? d "Invoice number" = some inv) := by
  refine ⟨?_, ?_, ?_, ?_, ?_⟩
  · intro hdr v h1
    simp [resolveInvoiceNumber, h1]
  · intro hdr v h1 h2
    simp [resolveInvoiceNumber, h1, h2]
  · intro hdr v h1 h2 h3
    simp [resolveInvoiceNumber, h1, h2, h3]
  · intro hdr h1 h2 h3
    simp [resolveInvoiceNumber, h1, h2, h3]
  · intro rows hdr ents h
    unfold readRows at h
    obtain ⟨pair, hloop, h⟩ := exceptBind_ok_inv h
    obtain ⟨inv, hres, h⟩ := exceptBind_ok_inv h
    obtain ⟨entsD, hent, h⟩ := exceptBind_ok_inv h
    simp only [Except.ok.injEq, Prod.mk.injEq] at h
    obtain ⟨hhdr, hents⟩ := h
    refine ⟨inv, by rw [← hhdr]; exact hres, ?_⟩
    intro d hd
    rw [← hents] at hd
    unfold read_entries at hent
    cases hpair : pair.2 with
    | nil => rw [hpair] at hent; simp at hent
    | cons headerRow entryRows =>
      rw [hpair] at hent
      simp only [Except.ok.injEq] at hent
      rw [← hent] at hd
      obtain ⟨e, _, he⟩ := List.mem_map.mp hd
      rw [← he]
      exact dictGet_dictInsert_self _ _ _

/-- C9 (witness). -/
theorem invoice_number_resolution_witness :
    resolveInvoiceNumber [("Credit memo number", "C-7")] = Except.ok "C-7" ∧
      resolveInvoiceNumber [("x", "1")] =
        Except.error ReadErr.keyErrorInvoiceNumber ∧
      (∃ inv,
        resolveInvoiceNumber [("Invoice number", "INV-1")] = Except.ok inv ∧
          ∀ d ∈ [[("Item", "W"), ("Qty", "1"), ("Invoice number", "INV-1")]],
            dictGet? d "Invoice number" = some inv) :=
  ⟨invoice_number_resolution.2.1 _ "C-7" (by decide) (by decide),
   invoice_number_resolution.2.2.2.1 _ (by decide) (by decide) (by decide),
   invoice_number_resolution.2.2.2.2
     [["Invoice number", "INV-1"], [], [], ["Item", "Qty"], ["W", "1"]]
     [("Invoice number", "INV-1")]
     [[("Item", "W"), ("Qty", "1"), ("Invoice number", "INV-1")]] (by decide)⟩

/-- C10.  `_clean_up` is total only when a sentinel row is present: when
no row of the payload has Report Fields as its first cell the slice start
index is never assigned and the function raises `UnboundLocalError`
instead of returning a value or a declared error kind; when some row
matches, a value is returned. -/
theorem clean_up_sentinel_required :
    (∀ data : List (List String),
        (∀ row ∈ data, isReportFieldsRow row = false) →
        clean_up data = CleanUpResult.unboundLocalError) ∧
    (∀ data : List (List String),
        (∃ row ∈ data, isReportFieldsRow row = true) →
        ∃ rows, clean_up data = CleanUpResult.ok rows) := by
  constructor
  · intro data h
    have hnone : findReportFieldsIdx data = none := by
      induction data with
      | nil => rfl
      | cons row rest ih =>
        simp [findReportFieldsIdx, h row (List.mem_cons_self row rest),
          ih (fun q hq => h q (List.mem_cons_of_mem row hq))]
    simp [clean_up, hnone]
  · intro data h
    have hsome : ∃ i, findReportFieldsIdx data = some i := by
      induction data with
      | nil => simp at h
      | cons row rest ih =>
        by_cases hrow : isReportFieldsRow row = true
        · exact ⟨0, by simp [findReportFieldsIdx, hrow]⟩
        · have hrest : ∃ q ∈ rest, isReportFieldsRow q = true := by
            obtain ⟨q, hq, hqt⟩ := h
            cases List.mem_cons.mp hq with
            | inl heq => exact absurd (heq ▸ hqt) hrow
            | inr hmem => exact ⟨q, hmem, hqt⟩
          obtain ⟨i, hi⟩ := ih hrest
          refine ⟨i + 1, ?_⟩
          simp [findReportFieldsIdx, hrow, hi]
    obtain ⟨i, hi⟩ := hsome
    exact ⟨(data.drop (i + 1)).dropLast, by simp [clean_up, hi]⟩

/-- C10 (witness). -/
theorem clean_up_sentinel_required_witness :
    clean_up [["x", "y"], ["z"]] = CleanUpResult.unboundLocalError ∧
      ∃ rows,
        clean_up [["Report Fields"], ["h1", "h2"], ["r1", "r2"], ["Total"]] =
          CleanUpResult.ok rows :=
  ⟨clean_up_sentinel_required.1 _ (by decide),
   clean_up_sentinel_required.2 _ ⟨["Report Fields"], by decide, by decide⟩⟩
